import Mathlib

/-!
Shallow embedding of maezato (index.js): a sequential, promise-chained
pipeline that lists the repositories of a GitHub user, clones each one
into a directory tree organised by category, and registers extra remotes
for forks.

Modelling conventions:
* Promises are sequential here (promise-each chains one item at a time),
  so a promise computation is embedded as a pure value
  `List Event × Except Reason A`: the list of observable side effects it
  performed, and fulfillment with an `A` or rejection with a `Reason`.
* External collaborators (the `exec` subprocess facility, the `got` HTTP
  client, `JSON.parse`) are oracles: their outcomes are inputs
  (`ExecOutcome`, `FetchOutcome`, a parse function), and each repository
  descriptor is paired with the outcomes the world will give for the
  calls made on its behalf (`ItemWorld`).
* `console.error` calls are `Event.reportError`; progress-bar mutation is
  `Event.tick` / `Event.render`; `mkdirp`, `exec` and `got` invocations
  are events too, so that claims about which calls happen are statements
  about the trace.
* A JavaScript `TypeError` raised inside a handler (reading a property of
  `undefined`) rejects the surrounding promise: embedded as rejection
  with `Reason.typeError`.
-/

namespace Maezato

/-- Character-list test: `t` starts the list `s`. -/
def hasPrefixChars : List Char → List Char → Bool
  | _, [] => true
  | [], _ :: _ => false
  | a :: s, b :: t => a == b && hasPrefixChars s t

/-- Character-list test: `t` occurs somewhere inside `s`. -/
def containsChars : List Char → List Char → Bool
  | [], t => hasPrefixChars [] t
  | a :: s, t => hasPrefixChars (a :: s) t || containsChars s t

/-- Embedding of the JavaScript test `s.indexOf(sub) !== INDEX_NOT_FOUND`:
true exactly when `sub` occurs as a substring of `s`. -/
def indexOfFound (s sub : String) : Bool :=
  containsChars s.data sub.data

/-- `GH_API_URL` constant from index.js. -/
def GH_API_URL : String := "https://api.github.com/"

/-- The `owner` field of a repository descriptor. -/
structure Owner where
  login : String
deriving DecidableEq, Repr

/-- One repository descriptor as returned by the forge listing. -/
structure Item where
  name : String
  ssh_url : String
  fork : Bool
  owner : Owner
deriving DecidableEq, Repr

/-- The `cmdOptions` module state of index.js (the fields the core reads). -/
structure Config where
  username : String
  cloneBaseDir : String
  omitUsername : Bool
deriving DecidableEq, Repr

/-- Outcome of one `exec` subprocess call: whether the callback received an
`error`, and the `stderr` text it received. -/
structure ExecOutcome where
  err : Bool
  stderr : String
deriving DecidableEq, Repr

/-- Fork-lineage fields of the single-repository detail record: the clone
URLs of `parent` and `source`. -/
structure ForkInfo where
  parent_ssh_url : String
  source_ssh_url : String
deriving DecidableEq, Repr

/-- Outcome of one `got` HTTP call: fulfilled with a body, rejected with an
HTTP error that carries a response body, or rejected with a network-level
error that carries no response. -/
inductive FetchOutcome (α : Type) where
  | ok (body : α)
  | httpError (body : String)
  | netError
deriving DecidableEq, Repr

/-- The oracle for all external calls made on behalf of one descriptor:
the clone subprocess, the fork-detail fetch, and the two remote-add
subprocesses. -/
structure ItemWorld where
  clone : ExecOutcome
  forkFetch : FetchOutcome ForkInfo
  upstream : ExecOutcome
  original : ExecOutcome
deriving DecidableEq, Repr

/-- Rejection reasons flowing through the promise chain. -/
inductive Reason where
  | execError (stderr : String)
  | httpError (body : String)
  | netError
  | typeError
deriving DecidableEq, Repr

instance exceptDecEq {ε α : Type} [DecidableEq ε] [DecidableEq α] :
    DecidableEq (Except ε α) := fun a b =>
  match a, b with
  | Except.ok x, Except.ok y =>
      if h : x = y then isTrue (h ▸ rfl) else isFalse (fun hh => h (Except.ok.inj hh))
  | Except.error x, Except.error y =>
      if h : x = y then isTrue (h ▸ rfl) else isFalse (fun hh => h (Except.error.inj hh))
  | Except.ok _, Except.error _ => isFalse (fun hh => Except.noConfusion hh)
  | Except.error _, Except.ok _ => isFalse (fun hh => Except.noConfusion hh)

/-- Observable side effects of the pipeline. -/
inductive Event where
  | initProgress (total : Nat)
  | tick
  | render
  | reportError (msg : String)
  | mkdir (p : String)
  | execClone (url : String) (cwd : String)
  | execRemoteAdd (remoteName : String) (url : String) (cwd : String)
  | fetchRepo (url : String)
  | fetchUserRepos (url : String)
  | log (msg : String)
deriving DecidableEq, Repr

/-- The clone URLs of the `git clone` invocations in a trace, in order:
which descriptors were actually visited by the clone executor. -/
def cloneUrls (evs : List Event) : List String :=
  evs.filterMap (fun e => match e with
    | Event.execClone url _ => some url
    | _ => none)

/-- The (name, url) pairs of the `git remote add` invocations in a trace,
in order. -/
def remoteAdds (evs : List Event) : List (String × String) :=
  evs.filterMap (fun e => match e with
    | Event.execRemoteAdd n u _ => some (n, u)
    | _ => none)

/-- The URLs of the single-repository fork-detail fetches in a trace. -/
def lineageFetches (evs : List Event) : List String :=
  evs.filterMap (fun e => match e with
    | Event.fetchRepo url => some url
    | _ => none)

/-- Number of progress ticks in a trace. -/
def countTicks (evs : List Event) : Nat :=
  (evs.filterMap (fun e => match e with
    | Event.tick => some ()
    | _ => none)).length

/-- Embedding of `parseJson` (index.js lines 38-49). `JSON.parse` is an
external primitive, passed as an oracle: `Except.error e` means the parse
threw exception text `e`. The try/catch reports the error and falls
through, returning `undefined` (`none`). -/
def parseJson {α : Type} (jsonParse : String → Except String α) (text : String) :
    List Event × Option α :=
  match jsonParse text with
  | Except.ok v => ([], some v)
  | Except.error e => ([Event.reportError (" Parsing JSON failed. " ++ e)], none)

/-- Embedding of `getRepos` (index.js lines 56-70). On fulfillment the body
is the descriptor list (each descriptor paired with its oracle). On an HTTP
error the catch handler reports and returns `undefined` (`none`). On a
network error without a response the catch handler prints its first line and
then throws reading `error.response.body`, so the promise rejects. -/
def getRepos (cfg : Config) (lw : FetchOutcome (List (Item × ItemWorld))) :
    List Event × Except Reason (Option (List (Item × ItemWorld))) :=
  let url := GH_API_URL ++ "users/" ++ cfg.username ++ "/repos?type=all&per_page=100"
  match lw with
  | FetchOutcome.ok body => ([Event.fetchUserRepos url], Except.ok (some body))
  | FetchOutcome.httpError body =>
      ([Event.fetchUserRepos url,
        Event.reportError " Fetching repository list failed.",
        Event.reportError body],
       Except.ok none)
  | FetchOutcome.netError =>
      ([Event.fetchUserRepos url,
        Event.reportError " Fetching repository list failed."],
       Except.error Reason.typeError)

/-- The rejection test of `addRemote` (index.js line 95): the callback got
an error and stderr does not contain the tolerated substring. -/
def addRemoteRejects (remoteName : String) (w : ExecOutcome) : Bool :=
  w.err && !(indexOfFound w.stderr ("remote " ++ remoteName ++ " already exists"))

/-- Embedding of `addRemote` (index.js lines 81-104): runs
`git remote add name url` in `forkPath`; a failure whose stderr contains
"remote name already exists" is treated as success, any other failure is
reported and rejects; on success the promise fulfills with `item`. -/
def addRemote {α : Type} (item : α) (forkPath : String) (remoteName : String)
    (url : String) (w : ExecOutcome) : List Event × Except Reason α :=
  if addRemoteRejects remoteName w then
    ([Event.execRemoteAdd remoteName url forkPath,
      Event.reportError (" Adding remote \"" ++ remoteName ++ "\" failed for " ++ url)],
     Except.error (Reason.execError w.stderr))
  else
    ([Event.execRemoteAdd remoteName url forkPath], Except.ok item)

/-- The catch handler of `getFork` (index.js lines 134-137): prints
" Getting fork details failed." and then `error.response.body`. When the
rejection reason carries a response (an HTTP error) both lines print and
the handler returns `undefined`, fulfilling the chain with `none`; any
other reason has no `response`, so reading `.body` throws a TypeError and
the chain rejects. -/
def getForkCatch (evs : List Event) (e : Reason) :
    List Event × Except Reason (Option ForkInfo) :=
  match e with
  | Reason.httpError body =>
      (evs ++ [Event.reportError " Getting fork details failed.",
               Event.reportError body],
       Except.ok none)
  | _ =>
      (evs ++ [Event.reportError " Getting fork details failed."],
       Except.error Reason.typeError)

/-- Embedding of `getFork` (index.js lines 117-138): fetches the detail
record of (user, repo), then registers remote `upstream` at the parent
clone URL, then remote `original` at the source clone URL, each step
chained with `.then`; every rejection in the chain lands in the catch
handler `getForkCatch`. -/
def getFork (forkPath : String) (user : String) (repo : String) (w : ItemWorld) :
    List Event × Except Reason (Option ForkInfo) :=
  let url := GH_API_URL ++ "repos/" ++ user ++ "/" ++ repo
  match w.forkFetch with
  | FetchOutcome.httpError body =>
      getForkCatch [Event.fetchRepo url] (Reason.httpError body)
  | FetchOutcome.netError =>
      getForkCatch [Event.fetchRepo url] Reason.netError
  | FetchOutcome.ok info =>
      let r1 := addRemote info forkPath "upstream" info.parent_ssh_url w.upstream
      match r1.2 with
      | Except.error e => getForkCatch (Event.fetchRepo url :: r1.1) e
      | Except.ok info1 =>
          let r2 := addRemote info1 forkPath "original" info1.source_ssh_url w.original
          match r2.2 with
          | Except.error e => getForkCatch (Event.fetchRepo url :: r1.1 ++ r2.1) e
          | Except.ok info2 =>
              (Event.fetchRepo url :: r1.1 ++ r2.1, Except.ok (some info2))

/-- The `type` computed by `cloneRepo` (index.js lines 147-151). -/
def repoType (cfg : Config) (item : Item) : String :=
  if item.fork then "fork"
  else if item.owner.login == cfg.username then "mine"
  else "contributing"

/-- Embedding of `path.join` on already-normalised segments. -/
def pathJoin (a b : String) : String := a ++ "/" ++ b

/-- The `clonePath` computed by `cloneRepo` (index.js lines 153-155). -/
def clonePathOf (cfg : Config) (item : Item) : String :=
  if cfg.omitUsername then pathJoin cfg.cloneBaseDir (repoType cfg item)
  else pathJoin (pathJoin cfg.cloneBaseDir cfg.username) (repoType cfg item)

/-- The tolerated clone diagnostic substring (index.js line 175). -/
def alreadyExistsMsg : String := "already exists and is not an empty directory"

/-- The rejection test of `cloneRepo` (index.js line 175): the callback got
an error and stderr does not contain the tolerated substring. -/
def cloneRejects (w : ItemWorld) : Bool :=
  w.clone.err && !(indexOfFound w.clone.stderr alreadyExistsMsg)

/-- Fulfillment value of `cloneRepo`: the descriptor itself for a non-fork,
or the value of the `getFork` chain for a fork. -/
inductive CloneValue where
  | item (it : Item)
  | fork (info : Option ForkInfo)
deriving DecidableEq, Repr

/-- Embedding of `cloneRepo` (index.js lines 146-194): computes the type
and clone path, ensures the directory exists, runs `git clone`; the exec
callback ticks the progress bar and then either rejects (error not
containing the tolerated substring, after reporting) or fulfills with the
descriptor; the following `.then` ticks again and, for a fork, delegates
to `getFork`. There is no catch: a rejection propagates to the caller. -/
def cloneRepo (cfg : Config) (item : Item) (w : ItemWorld) :
    List Event × Except Reason CloneValue :=
  let clonePath := clonePathOf cfg item
  let pre := [Event.mkdir clonePath, Event.execClone item.ssh_url clonePath,
              Event.tick, Event.render]
  if cloneRejects w then
    (pre ++ [Event.reportError (" Cloning failed for " ++ item.ssh_url)],
     Except.error (Reason.execError w.clone.stderr))
  else
    let mid := pre ++ [Event.tick, Event.render]
    if item.fork then
      let rf := getFork (pathJoin clonePath item.name) item.owner.login item.name w
      (mid ++ rf.1, rf.2.map CloneValue.fork)
    else
      (mid, Except.ok (CloneValue.item item))

/-- Embedding of the `promise-each` reduce chain applied to `cloneRepo`
(index.js line 210): items are processed strictly in order, each one
starting only after the previous fulfilled; a rejection short-circuits the
remaining items and rejects the whole chain. -/
def eachClone (cfg : Config) : List (Item × ItemWorld) → List Event × Except Reason Unit
  | [] => ([], Except.ok ())
  | p :: rest =>
      let r := cloneRepo cfg p.1 p.2
      match r.2 with
      | Except.error e => (r.1, Except.error e)
      | Except.ok _ =>
          let rs := eachClone cfg rest
          (r.1 ++ rs.1, rs.2)

/-- Embedding of `handleRepos` (index.js lines 201-211): builds the
progress bar with total `list.length * 2` and chains `cloneRepo` over the
list. When the listing step produced `undefined`, evaluating `list.length`
throws a TypeError, rejecting the chain before anything runs. On success
the promise-each chain fulfills with the original array. -/
def handleRepos (cfg : Config) (list : Option (List (Item × ItemWorld))) :
    List Event × Except Reason (List Item) :=
  match list with
  | none => ([], Except.error Reason.typeError)
  | some l =>
      let r := eachClone cfg l
      (Event.initProgress (l.length * 2) :: r.1,
       r.2.map (fun _ => l.map Prod.fst))

/-- Embedding of `run` (index.js lines 224-237): makes the base directory,
fetches the repository list and hands it to `handleRepos`; the final
`.then` logs the closing message only if the whole chain fulfilled. There
is no catch anywhere in this chain. -/
def run (cfg : Config) (lw : FetchOutcome (List (Item × ItemWorld))) :
    List Event × Except Reason Unit :=
  let ev0 := [Event.log ("Cloning to a structure under \"" ++ cfg.cloneBaseDir ++ "\""),
              Event.mkdir cfg.cloneBaseDir]
  let rg := getRepos cfg lw
  match rg.2 with
  | Except.error e => (ev0 ++ rg.1, Except.error e)
  | Except.ok data =>
      let rh := handleRepos cfg data
      match rh.2 with
      | Except.error e => (ev0 ++ rg.1 ++ rh.1, Except.error e)
      | Except.ok _ =>
          (ev0 ++ rg.1 ++ rh.1 ++ [Event.log "All done, thank you!"], Except.ok ())

/-- The three categories, as the spec names them. -/
inductive Category where
  | Fork
  | Mine
  | Contributing
deriving DecidableEq, Repr

/-- The lowercase path fragment of a category, as the spec words it. -/
def Category.fragment : Category → String
  | Category.Fork => "fork"
  | Category.Mine => "mine"
  | Category.Contributing => "contributing"

/-- Classifier written from the words of the spec, for comparison with the
source computation `repoType`: if isFork then Fork, else if the owner is
the acting user then Mine, else Contributing. -/
def classifySpec (isFork : Bool) (ownerEqUser : Bool) : Category :=
  if isFork then Category.Fork
  else if ownerEqUser then Category.Mine
  else Category.Contributing

/-- Fulfillment test for an embedded promise outcome. -/
def isFulfilled {α : Type} : Except Reason α → Bool
  | Except.ok _ => true
  | Except.error _ => false

theorem cloneUrls_append (a b : List Event) :
    cloneUrls (a ++ b) = cloneUrls a ++ cloneUrls b := by
  simp [cloneUrls]

theorem countTicks_append (a b : List Event) :
    countTicks (a ++ b) = countTicks a + countTicks b := by
  simp [countTicks]

theorem lineageFetches_append (a b : List Event) :
    lineageFetches (a ++ b) = lineageFetches a ++ lineageFetches b := by
  simp [lineageFetches]

theorem remoteAdds_append (a b : List Event) :
    remoteAdds (a ++ b) = remoteAdds a ++ remoteAdds b := by
  simp [remoteAdds]

theorem getFork_no_clones (forkPath user repo : String) (w : ItemWorld) :
    cloneUrls (getFork forkPath user repo w).1 = [] := by
  unfold getFork
  cases hf : w.forkFetch with
  | httpError body => simp [getForkCatch, cloneUrls]
  | netError => simp [getForkCatch, cloneUrls]
  | ok info =>
      by_cases h1 : addRemoteRejects "upstream" w.upstream <;>
        by_cases h2 : addRemoteRejects "original" w.original <;>
          simp [addRemote, h1, h2, getForkCatch, cloneUrls]

theorem getFork_no_ticks (forkPath user repo : String) (w : ItemWorld) :
    countTicks (getFork forkPath user repo w).1 = 0 := by
  unfold getFork
  cases hf : w.forkFetch with
  | httpError body => simp [getForkCatch, countTicks]
  | netError => simp [getForkCatch, countTicks]
  | ok info =>
      by_cases h1 : addRemoteRejects "upstream" w.upstream <;>
        by_cases h2 : addRemoteRejects "original" w.original <;>
          simp [addRemote, h1, h2, getForkCatch, countTicks]

theorem getFork_lineage (forkPath user repo : String) (w : ItemWorld) :
    lineageFetches (getFork forkPath user repo w).1 =
      [GH_API_URL ++ "repos/" ++ user ++ "/" ++ repo] := by
  unfold getFork
  cases hf : w.forkFetch with
  | httpError body => simp [getForkCatch, lineageFetches]
  | netError => simp [getForkCatch, lineageFetches]
  | ok info =>
      by_cases h1 : addRemoteRejects "upstream" w.upstream <;>
        by_cases h2 : addRemoteRejects "original" w.original <;>
          simp [addRemote, h1, h2, getForkCatch, lineageFetches]

/-- Claim C2: the classifier is a pure function of the pair
(descriptor.isFork, descriptor.owner equals the acting user): fork wins
over ownership, then ownership decides Mine against Contributing, and the
path fragment is the lowercase category name. The source computation
`repoType` coincides with the spec-worded classifier `classifySpec`
followed by `Category.fragment`. -/
theorem classifier_matches_spec (cfg : Config) (item : Item) :
    repoType cfg item =
      (classifySpec item.fork (item.owner.login == cfg.username)).fragment := by
  cases hf : item.fork <;>
    cases ho : item.owner.login == cfg.username <;>
      simp [repoType, classifySpec, hf, ho, Category.fragment]

/-- Claim C7: a remote-add subprocess failure whose stderr contains
"remote name already exists" fulfills with the item and reports nothing;
any other remote-add failure is reported and rejects the registration. -/
theorem remote_add_tolerates_existing {α : Type} (item : α)
    (forkPath remoteName url : String) (w : ExecOutcome) :
    (w.err = true →
      indexOfFound w.stderr ("remote " ++ remoteName ++ " already exists") = true →
      addRemote item forkPath remoteName url w =
        ([Event.execRemoteAdd remoteName url forkPath], Except.ok item)) ∧
    (w.err = true →
      indexOfFound w.stderr ("remote " ++ remoteName ++ " already exists") = false →
      addRemote item forkPath remoteName url w =
        ([Event.execRemoteAdd remoteName url forkPath,
          Event.reportError (" Adding remote \"" ++ remoteName ++ "\" failed for " ++ url)],
         Except.error (Reason.execError w.stderr))) := by
  constructor
  · intro h1 h2
    simp [addRemote, addRemoteRejects, h1, h2]
  · intro h1 h2
    simp [addRemote, addRemoteRejects, h1, h2]

/-- Witness for the C7 theorem at a concrete tolerated failure. -/
theorem remote_add_tolerates_existing_witness :
    addRemote (0 : Nat) "/x/fork/y" "upstream" "git@u"
        ⟨true, "fatal: remote upstream already exists."⟩ =
      ([Event.execRemoteAdd "upstream" "git@u" "/x/fork/y"], Except.ok 0) :=
  (remote_add_tolerates_existing 0 "/x/fork/y" "upstream" "git@u"
      ⟨true, "fatal: remote upstream already exists."⟩).1 rfl (by decide)

/-- Claim C8: the clone target is base/category when username-omission is
on and base/username/category otherwise, and the trace of the clone
executor begins with the idempotent directory creation of exactly that
path, followed by the clone invocation whose working directory is that
path (git itself appends the repository name). -/
theorem clone_target_path (cfg : Config) (item : Item) (w : ItemWorld) :
    (cfg.omitUsername = true →
       clonePathOf cfg item = cfg.cloneBaseDir ++ "/" ++ repoType cfg item) ∧
    (cfg.omitUsername = false →
       clonePathOf cfg item =
         cfg.cloneBaseDir ++ "/" ++ cfg.username ++ "/" ++ repoType cfg item) ∧
    (cloneRepo cfg item w).1.take 2 =
      [Event.mkdir (clonePathOf cfg item),
       Event.execClone item.ssh_url (clonePathOf cfg item)] := by
  refine ⟨fun h => ?_, fun h => ?_, ?_⟩
  · simp [clonePathOf, pathJoin, h]
  · simp [clonePathOf, pathJoin, h]
  · unfold cloneRepo
    by_cases hr : cloneRejects w
    · simp [hr]
    · by_cases hf : item.fork <;> simp [hr, hf]

/-- Witness for the C8 theorem at a concrete configuration. -/
theorem clone_target_path_witness :
    clonePathOf ⟨"u", "base", false⟩ ⟨"x", "git@x", false, ⟨"u"⟩⟩ = "base/u/mine" := by
  have h := (clone_target_path ⟨"u", "base", false⟩ ⟨"x", "git@x", false, ⟨"u"⟩⟩
      ⟨⟨false, ""⟩, FetchOutcome.netError, ⟨false, ""⟩, ⟨false, ""⟩⟩).2.1 rfl
  rw [h]
  decide

/-- Claim C10: parseJson never propagates the parse exception: on a
successful parse it returns the parsed value with no report, and on a
parse failure it reports the error and returns undefined. -/
theorem parseJson_never_throws {α : Type} (jsonParse : String → Except String α)
    (text : String) :
    (∀ v, jsonParse text = Except.ok v → parseJson jsonParse text = ([], some v)) ∧
    (∀ e, jsonParse text = Except.error e →
       parseJson jsonParse text =
         ([Event.reportError (" Parsing JSON failed. " ++ e)], none)) := by
  constructor
  · intro v hv
    simp [parseJson, hv]
  · intro e he
    simp [parseJson, he]

/-- Witness for the C10 theorem at a concrete parse outcome. -/
theorem parseJson_never_throws_witness :
    parseJson (fun _ => Except.ok (0 : Nat)) "not json" = ([], some 0) :=
  (parseJson_never_throws (fun _ => Except.ok (0 : Nat)) "not json").1 0 rfl

/-- Claim C5 (amended): when the listing call fails with an HTTP error the
failure is reported and getRepos fulfills with an absent result, but the
batch step then throws a TypeError evaluating the absent list (rejecting
the chain and never reaching the closing log) instead of proceeding with
nothing to do; and when the listing call fails without a response, the
report handler itself throws, so getRepos rejects past its caller. -/
theorem listing_failure_behaviour (cfg : Config) (body : String) :
    (getRepos cfg (FetchOutcome.httpError body)).2 = Except.ok none ∧
    Event.reportError " Fetching repository list failed."
      ∈ (getRepos cfg (FetchOutcome.httpError body)).1 ∧
    (handleRepos cfg none).2 = Except.error Reason.typeError ∧
    (run cfg (FetchOutcome.httpError body)).2 = Except.error Reason.typeError ∧
    (getRepos cfg FetchOutcome.netError).2 = Except.error Reason.typeError := by
  refine ⟨rfl, ?_, rfl, rfl, rfl⟩
  simp [getRepos]

theorem getFork_ignores_clone (forkPath user repo : String) (w : ItemWorld)
    (c : ExecOutcome) :
    getFork forkPath user repo { w with clone := c } = getFork forkPath user repo w := rfl

theorem cloneRepo_cloneUrls (cfg : Config) (item : Item) (w : ItemWorld) :
    cloneUrls (cloneRepo cfg item w).1 = [item.ssh_url] := by
  unfold cloneRepo
  by_cases hr : cloneRejects w
  · simp [hr, cloneUrls]
  · by_cases hf : item.fork
    · have hg := getFork_no_clones (pathJoin (clonePathOf cfg item) item.name)
        item.owner.login item.name w
      simp only [cloneUrls] at hg ⊢
      simp [hr, hf, hg]
    · simp [hr, hf, cloneUrls]

theorem cloneRepo_ticks (cfg : Config) (item : Item) (w : ItemWorld) :
    countTicks (cloneRepo cfg item w).1 = (if cloneRejects w then 1 else 2) := by
  unfold cloneRepo
  by_cases hr : cloneRejects w
  · simp [hr, countTicks]
  · by_cases hf : item.fork
    · have hg := getFork_no_ticks (pathJoin (clonePathOf cfg item) item.name)
        item.owner.login item.name w
      simp only [countTicks] at hg ⊢
      simp [hr, hf, hg]
    · simp [hr, hf, countTicks]

theorem cloneRepo_ok_not_rejected (cfg : Config) (item : Item) (w : ItemWorld)
    (h : isFulfilled (cloneRepo cfg item w).2 = true) : cloneRejects w = false := by
  by_cases hr : cloneRejects w = true
  · exfalso
    unfold cloneRepo at h
    simp [hr, isFulfilled] at h
  · simpa using hr

/-- Claim C4: a clone failure whose stderr contains the tolerated
"already exists and is not an empty directory" text behaves exactly like a
successful clone: the whole item computation is the one of a succeeding
clone subprocess, a non-fork item fulfills with its descriptor and reports
nothing, and a fork item still performs its fork-lineage fetch. -/
theorem clone_already_exists_tolerated (cfg : Config) (item : Item) (w : ItemWorld)
    (h1 : w.clone.err = true)
    (h2 : indexOfFound w.clone.stderr alreadyExistsMsg = true) :
    cloneRepo cfg item w = cloneRepo cfg item { w with clone := ⟨false, ""⟩ } ∧
    (item.fork = false → (cloneRepo cfg item w).2 = Except.ok (CloneValue.item item)) ∧
    (item.fork = false → ∀ msg, Event.reportError msg ∉ (cloneRepo cfg item w).1) ∧
    (item.fork = true →
       lineageFetches (cloneRepo cfg item w).1 =
         [GH_API_URL ++ "repos/" ++ item.owner.login ++ "/" ++ item.name]) := by
  have hr : cloneRejects w = false := by
    simp [cloneRejects, h1, h2]
  have hr2 : cloneRejects { w with clone := (⟨false, ""⟩ : ExecOutcome) } = false := by
    simp [cloneRejects]
  refine ⟨?_, fun hf => ?_, fun hf msg => ?_, fun hf => ?_⟩
  · unfold cloneRepo
    rw [hr, hr2]
    rfl
  · unfold cloneRepo
    simp [hr, hf]
  · unfold cloneRepo
    simp [hr, hf]
  · unfold cloneRepo
    have hg := getFork_lineage (pathJoin (clonePathOf cfg item) item.name)
      item.owner.login item.name w
    simp only [lineageFetches] at hg ⊢
    simp [hr, hf, hg]

/-- Witness for the C4 theorem: a concrete tolerated clone failure on a
non-fork item fulfills with the descriptor. -/
theorem clone_already_exists_tolerated_witness :
    (cloneRepo ⟨"u", "b", true⟩ ⟨"x", "git@x", false, ⟨"u"⟩⟩
        ⟨⟨true, "fatal: destination path already exists and is not an empty directory"⟩,
         FetchOutcome.netError, ⟨false, ""⟩, ⟨false, ""⟩⟩).2 =
      Except.ok (CloneValue.item ⟨"x", "git@x", false, ⟨"u"⟩⟩) :=
  (clone_already_exists_tolerated ⟨"u", "b", true⟩ ⟨"x", "git@x", false, ⟨"u"⟩⟩
      ⟨⟨true, "fatal: destination path already exists and is not an empty directory"⟩,
       FetchOutcome.netError, ⟨false, ""⟩, ⟨false, ""⟩⟩ rfl (by decide)).2.1 rfl

/-- Claim C6: for a fork whose detail fetch succeeded, the remote
registrations in the trace are exactly upstream at the parent clone URL
followed by original at the source clone URL, and when the first
registration rejects the second is never attempted. -/
theorem fork_link_remote_order (forkPath user repo : String) (w : ItemWorld)
    (info : ForkInfo) (h : w.forkFetch = FetchOutcome.ok info) :
    remoteAdds (getFork forkPath user repo w).1 =
      (if addRemoteRejects "upstream" w.upstream then
        [("upstream", info.parent_ssh_url)]
      else
        [("upstream", info.parent_ssh_url), ("original", info.source_ssh_url)]) := by
  unfold getFork
  rw [h]
  by_cases h1 : addRemoteRejects "upstream" w.upstream
  · simp [addRemote, h1, getForkCatch, remoteAdds]
  · by_cases h2 : addRemoteRejects "original" w.original
    · simp [addRemote, h1, h2, getForkCatch, remoteAdds]
    · simp [addRemote, h1, h2, remoteAdds]

/-- Witness for the C6 theorem at a concrete fork whose registrations both
succeed. -/
theorem fork_link_remote_order_witness :
    remoteAdds (getFork "/b/fork/y" "o" "y"
        ⟨⟨false, ""⟩, FetchOutcome.ok ⟨"git@parent", "git@source"⟩,
         ⟨false, ""⟩, ⟨false, ""⟩⟩).1 =
      [("upstream", "git@parent"), ("original", "git@source")] := by
  have h := fork_link_remote_order "/b/fork/y" "o" "y"
      ⟨⟨false, ""⟩, FetchOutcome.ok ⟨"git@parent", "git@source"⟩,
       ⟨false, ""⟩, ⟨false, ""⟩⟩
      ⟨"git@parent", "git@source"⟩ rfl
  rw [h]
  decide

theorem cloneUrls_init_cons (n : Nat) (t : List Event) :
    cloneUrls (Event.initProgress n :: t) = cloneUrls t := by
  simp [cloneUrls]

theorem countTicks_init_cons (n : Nat) (t : List Event) :
    countTicks (Event.initProgress n :: t) = countTicks t := by
  simp [countTicks]

theorem eachClone_all_ok (cfg : Config) (l : List (Item × ItemWorld))
    (h : ∀ p ∈ l, isFulfilled (cloneRepo cfg p.1 p.2).2 = true) :
    (eachClone cfg l).2 = Except.ok () ∧
    cloneUrls (eachClone cfg l).1 = l.map (fun p => p.1.ssh_url) ∧
    countTicks (eachClone cfg l).1 = 2 * l.length := by
  induction l with
  | nil => simp [eachClone, cloneUrls, countTicks]
  | cons p rest ih =>
      have hp := h p (by simp)
      obtain ⟨e1, e2, e3⟩ := ih (fun q hq => h q (by simp [hq]))
      have hticks := cloneRepo_ticks cfg p.1 p.2
      rw [cloneRepo_ok_not_rejected cfg p.1 p.2 hp] at hticks
      simp at hticks
      cases hc : (cloneRepo cfg p.1 p.2).2 with
      | error e =>
          rw [hc] at hp
          simp [isFulfilled] at hp
      | ok v =>
          refine ⟨?_, ?_, ?_⟩
          · simp [eachClone, hc, e1]
          · simp [eachClone, hc, cloneUrls_append, cloneRepo_cloneUrls, e2]
          · simp [eachClone, hc, countTicks_append, hticks, e3]
            omega

theorem eachClone_stops (cfg : Config) (p : Item × ItemWorld)
    (l2 : List (Item × ItemWorld)) (e : Reason) :
    ∀ l1, (∀ q ∈ l1, isFulfilled (cloneRepo cfg q.1 q.2).2 = true) →
    (cloneRepo cfg p.1 p.2).2 = Except.error e →
    (eachClone cfg (l1 ++ p :: l2)).2 = Except.error e ∧
    cloneUrls (eachClone cfg (l1 ++ p :: l2)).1 =
      (l1 ++ [p]).map (fun q => q.1.ssh_url) := by
  intro l1
  induction l1 with
  | nil =>
      intro _ h2
      constructor
      · simp [eachClone, h2]
      · simp [eachClone, h2, cloneRepo_cloneUrls]
  | cons q rest ih =>
      intro h1 h2
      have hq := h1 q (by simp)
      obtain ⟨f1, f2⟩ := ih (fun r hr => h1 r (by simp [hr])) h2
      cases hc : (cloneRepo cfg q.1 q.2).2 with
      | error er =>
          rw [hc] at hq
          simp [isFulfilled] at hq
      | ok v =>
          constructor
          · simp [eachClone, hc, f1]
          · simp [eachClone, hc, cloneUrls_append, cloneRepo_cloneUrls, f2]

/-- Claim C1 (amended): the batch promise resolves, visiting every
descriptor in order, exactly when every item of the list fulfills its own
pipeline; but when some item rejects (for instance a non-tolerated clone
failure) after a fulfilled prefix, the batch promise rejects with that
error and the clone executor never visits the remaining descriptors. -/
theorem batch_visits_and_resolves (cfg : Config) (l : List (Item × ItemWorld)) :
    ((∀ p ∈ l, isFulfilled (cloneRepo cfg p.1 p.2).2 = true) →
       (handleRepos cfg (some l)).2 = Except.ok (l.map Prod.fst) ∧
       cloneUrls (handleRepos cfg (some l)).1 = l.map (fun p => p.1.ssh_url)) ∧
    (∀ l1 p l2 e, l = l1 ++ p :: l2 →
       (∀ q ∈ l1, isFulfilled (cloneRepo cfg q.1 q.2).2 = true) →
       (cloneRepo cfg p.1 p.2).2 = Except.error e →
       (handleRepos cfg (some l)).2 = Except.error e ∧
       cloneUrls (handleRepos cfg (some l)).1 =
         (l1 ++ [p]).map (fun q => q.1.ssh_url)) := by
  constructor
  · intro h
    obtain ⟨e1, e2, e3⟩ := eachClone_all_ok cfg l h
    constructor
    · simp [handleRepos, e1, Except.map]
    · simp [handleRepos, cloneUrls_init_cons, e2]
  · intro l1 p l2 e hl h1 h2
    subst hl
    obtain ⟨f1, f2⟩ := eachClone_stops cfg p l2 e l1 h1 h2
    constructor
    · simp [handleRepos, f1, Except.map]
    · simp [handleRepos, cloneUrls_init_cons, f2]

/-- Witness for the C1 amended theorem at a concrete all-fulfilling batch. -/
theorem batch_visits_and_resolves_witness :
    (handleRepos ⟨"u", "b", true⟩
        (some [(⟨"x", "git@x", false, ⟨"u"⟩⟩,
                ⟨⟨false, ""⟩, FetchOutcome.netError, ⟨false, ""⟩, ⟨false, ""⟩⟩)])).2 =
      Except.ok [⟨"x", "git@x", false, ⟨"u"⟩⟩] ∧
    cloneUrls (handleRepos ⟨"u", "b", true⟩
        (some [(⟨"x", "git@x", false, ⟨"u"⟩⟩,
                ⟨⟨false, ""⟩, FetchOutcome.netError, ⟨false, ""⟩, ⟨false, ""⟩⟩)])).1 =
      ["git@x"] := by
  have h := (batch_visits_and_resolves ⟨"u", "b", true⟩
      [(⟨"x", "git@x", false, ⟨"u"⟩⟩,
        ⟨⟨false, ""⟩, FetchOutcome.netError, ⟨false, ""⟩, ⟨false, ""⟩⟩)]).1 (by decide)
  simpa using h

/-- Counterexample for claim C1 as stated: in a concrete two-item batch
whose first clone fails with a non-tolerated error, the batch promise
rejects instead of resolving and the second descriptor is never visited
(the only clone invocation in the whole trace is the first one). -/
theorem batch_failure_cex :
    (handleRepos ⟨"u", "b", true⟩
        (some [(⟨"a", "sshA", false, ⟨"u"⟩⟩,
                ⟨⟨true, "fatal: repository not found"⟩, FetchOutcome.netError,
                 ⟨false, ""⟩, ⟨false, ""⟩⟩),
               (⟨"c", "sshC", false, ⟨"u"⟩⟩,
                ⟨⟨false, ""⟩, FetchOutcome.netError, ⟨false, ""⟩, ⟨false, ""⟩⟩)])).2 =
      Except.error (Reason.execError "fatal: repository not found") ∧
    cloneUrls (handleRepos ⟨"u", "b", true⟩
        (some [(⟨"a", "sshA", false, ⟨"u"⟩⟩,
                ⟨⟨true, "fatal: repository not found"⟩, FetchOutcome.netError,
                 ⟨false, ""⟩, ⟨false, ""⟩⟩),
               (⟨"c", "sshC", false, ⟨"u"⟩⟩,
                ⟨⟨false, ""⟩, FetchOutcome.netError, ⟨false, ""⟩, ⟨false, ""⟩⟩)])).1 =
      ["sshA"] := by
  decide

/-- Claim C3 (amended): the progress counter is initialized with total 2N;
when every item of the batch fulfills its pipeline the counter advances
exactly 2N times, two per item whether or not fork-linking ran; but an
item whose clone fails contributes only one tick (and, per the C1
counterexample, ends the batch), so the counter can fall short of 2N. -/
theorem progress_total_and_ticks (cfg : Config) (l : List (Item × ItemWorld))
    (h : ∀ p ∈ l, isFulfilled (cloneRepo cfg p.1 p.2).2 = true) :
    (handleRepos cfg (some l)).1.head? = some (Event.initProgress (l.length * 2)) ∧
    countTicks (handleRepos cfg (some l)).1 = 2 * l.length ∧
    (∀ it w, cloneRejects w = true → countTicks (cloneRepo cfg it w).1 = 1) := by
  obtain ⟨e1, e2, e3⟩ := eachClone_all_ok cfg l h
  refine ⟨?_, ?_, fun it w hw => ?_⟩
  · simp [handleRepos]
  · simp [handleRepos, countTicks_init_cons, e3]
  · rw [cloneRepo_ticks cfg it w, hw]
    simp

/-- Witness for the C3 amended theorem at a concrete fulfilled fork item. -/
theorem progress_total_and_ticks_witness :
    (handleRepos ⟨"u", "b", true⟩
        (some [(⟨"y", "sshY", true, ⟨"o"⟩⟩,
                ⟨⟨false, ""⟩, FetchOutcome.ok ⟨"pu", "su"⟩,
                 ⟨false, ""⟩, ⟨false, ""⟩⟩)])).1.head? =
      some (Event.initProgress 2) ∧
    countTicks (handleRepos ⟨"u", "b", true⟩
        (some [(⟨"y", "sshY", true, ⟨"o"⟩⟩,
                ⟨⟨false, ""⟩, FetchOutcome.ok ⟨"pu", "su"⟩,
                 ⟨false, ""⟩, ⟨false, ""⟩⟩)])).1 = 2 := by
  have h := progress_total_and_ticks ⟨"u", "b", true⟩
      [(⟨"y", "sshY", true, ⟨"o"⟩⟩,
        ⟨⟨false, ""⟩, FetchOutcome.ok ⟨"pu", "su"⟩, ⟨false, ""⟩, ⟨false, ""⟩⟩)] (by decide)
  exact ⟨by simpa using h.1, by simpa using h.2.1⟩

/-- Counterexample for claim C3 as stated: in a concrete one-item batch
whose clone fails, the counter was initialized with total 2 but advances
only once, not 2N = 2 times. -/
theorem progress_shortfall_cex :
    Event.initProgress 2 ∈ (handleRepos ⟨"u", "b", true⟩
        (some [(⟨"a", "sshA", false, ⟨"u"⟩⟩,
                ⟨⟨true, "fatal: bad object"⟩, FetchOutcome.netError,
                 ⟨false, ""⟩, ⟨false, ""⟩⟩)])).1 ∧
    countTicks (handleRepos ⟨"u", "b", true⟩
        (some [(⟨"a", "sshA", false, ⟨"u"⟩⟩,
                ⟨⟨true, "fatal: bad object"⟩, FetchOutcome.netError,
                 ⟨false, ""⟩, ⟨false, ""⟩⟩)])).1 = 1 := by
  decide

/-- Claim C9 (amended): a clone failure other than the tolerated case
rejects the item with the subprocess error after reporting it, performs no
lineage fetch and no remote registration; and the chain then stops, so
subsequent items of the batch are not processed at all (rather than being
unaffected). -/
theorem clone_failure_skips_linking (cfg : Config) (item : Item) (w : ItemWorld)
    (h : cloneRejects w = true) :
    (cloneRepo cfg item w).2 = Except.error (Reason.execError w.clone.stderr) ∧
    Event.reportError (" Cloning failed for " ++ item.ssh_url)
      ∈ (cloneRepo cfg item w).1 ∧
    lineageFetches (cloneRepo cfg item w).1 = [] ∧
    remoteAdds (cloneRepo cfg item w).1 = [] ∧
    (∀ rest, eachClone cfg ((item, w) :: rest) =
       ((cloneRepo cfg item w).1, Except.error (Reason.execError w.clone.stderr))) := by
  have h2 : (cloneRepo cfg item w).2 = Except.error (Reason.execError w.clone.stderr) := by
    unfold cloneRepo
    simp [h]
  refine ⟨h2, ?_, ?_, ?_, fun rest => ?_⟩
  · unfold cloneRepo
    simp [h]
  · unfold cloneRepo
    simp [h, lineageFetches]
  · unfold cloneRepo
    simp [h, remoteAdds]
  · simp [eachClone, h2]

/-- Witness for the C9 amended theorem at a concrete failing fork clone. -/
theorem clone_failure_skips_linking_witness :
    (cloneRepo ⟨"u", "b", true⟩ ⟨"y", "sshY", true, ⟨"o"⟩⟩
        ⟨⟨true, "fatal: unable to access"⟩, FetchOutcome.ok ⟨"pu", "su"⟩,
         ⟨false, ""⟩, ⟨false, ""⟩⟩).2 =
      Except.error (Reason.execError "fatal: unable to access") :=
  (clone_failure_skips_linking ⟨"u", "b", true⟩ ⟨"y", "sshY", true, ⟨"o"⟩⟩
      ⟨⟨true, "fatal: unable to access"⟩, FetchOutcome.ok ⟨"pu", "su"⟩,
       ⟨false, ""⟩, ⟨false, ""⟩⟩ (by decide)).1

/-- Counterexample for claim C9 as stated: a concrete two-item batch whose
first item is a fork with a non-tolerated clone failure: the error is
reported and fork-linking is skipped as claimed, but the second item is
not unaffected — it is never visited (no clone invocation for it appears
in the trace). -/
theorem clone_failure_batch_cex :
    Event.reportError (" Cloning failed for " ++ "sshF")
      ∈ (handleRepos ⟨"u", "b", true⟩
          (some [(⟨"f", "sshF", true, ⟨"o"⟩⟩,
                  ⟨⟨true, "fatal: early EOF"⟩, FetchOutcome.ok ⟨"pu", "su"⟩,
                   ⟨false, ""⟩, ⟨false, ""⟩⟩),
                 (⟨"c", "sshC", false, ⟨"u"⟩⟩,
                  ⟨⟨false, ""⟩, FetchOutcome.netError,
                   ⟨false, ""⟩, ⟨false, ""⟩⟩)])).1 ∧
    lineageFetches (handleRepos ⟨"u", "b", true⟩
        (some [(⟨"f", "sshF", true, ⟨"o"⟩⟩,
                ⟨⟨true, "fatal: early EOF"⟩, FetchOutcome.ok ⟨"pu", "su"⟩,
                 ⟨false, ""⟩, ⟨false, ""⟩⟩),
               (⟨"c", "sshC", false, ⟨"u"⟩⟩,
                ⟨⟨false, ""⟩, FetchOutcome.netError,
                 ⟨false, ""⟩, ⟨false, ""⟩⟩)])).1 = [] ∧
    remoteAdds (handleRepos ⟨"u", "b", true⟩
        (some [(⟨"f", "sshF", true, ⟨"o"⟩⟩,
                ⟨⟨true, "fatal: early EOF"⟩, FetchOutcome.ok ⟨"pu", "su"⟩,
                 ⟨false, ""⟩, ⟨false, ""⟩⟩),
               (⟨"c", "sshC", false, ⟨"u"⟩⟩,
                ⟨⟨false, ""⟩, FetchOutcome.netError,
                 ⟨false, ""⟩, ⟨false, ""⟩⟩)])).1 = [] ∧
    cloneUrls (handleRepos ⟨"u", "b", true⟩
        (some [(⟨"f", "sshF", true, ⟨"o"⟩⟩,
                ⟨⟨true, "fatal: early EOF"⟩, FetchOutcome.ok ⟨"pu", "su"⟩,
                 ⟨false, ""⟩, ⟨false, ""⟩⟩),
               (⟨"c", "sshC", false, ⟨"u"⟩⟩,
                ⟨⟨false, ""⟩, FetchOutcome.netError,
                 ⟨false, ""⟩, ⟨false, ""⟩⟩)])).1 = ["sshF"] := by
  decide

/-- Counterexample for claim C5 as stated: at a concrete failing listing
call, the error is reported and the result is absent, but the batch does
not proceed with nothing to do — the chain rejects with a TypeError and
the closing log line is never reached. -/
theorem listing_failure_cex :
    (getRepos ⟨"u", "base", false⟩ (FetchOutcome.httpError "403")).2 = Except.ok none ∧
    Event.reportError " Fetching repository list failed."
      ∈ (getRepos ⟨"u", "base", false⟩ (FetchOutcome.httpError "403")).1 ∧
    (run ⟨"u", "base", false⟩ (FetchOutcome.httpError "403")).2 =
      Except.error Reason.typeError ∧
    Event.log "All done, thank you!"
      ∉ (run ⟨"u", "base", false⟩ (FetchOutcome.httpError "403")).1 := by
  decide

end Maezato
